import Mathlib

/-!
Verification of the compression pipeline driver of `src/commands/compress.rs`
(the `compress_files` routine and its `chain_writer_encoder` closure).

The embedding is shallow: the ordered format list, the writer-wrapping loop
and the per-format dispatch are translated into executable Lean definitions.
External collaborators (the filesystem, the archive builders, the question
prompt, the external 7z archiver) are modelled by an environment record that
fixes the outcome of each external call; observable effects are recorded in
an event trace.
-/

set_option maxHeartbeats 1000000

namespace Ouch

/-- The `CompressionFormat` enum from `src/extension.rs` (imported via
`CompressionFormat::*` in compress.rs). -/
inductive CompressionFormat
  | Tar
  | Zip
  | Rar
  | SevenZip
  | Gzip
  | Bzip
  | Lz4
  | Lzma
  | Snappy
  | Zstd
deriving DecidableEq, Repr

namespace CompressionFormat

/-- The formats handled by the streaming arm of the `match` on `first_format`
(compress.rs line 96): `Gzip | Bzip | Lz4 | Lzma | Snappy | Zstd`. -/
def isStreaming : CompressionFormat → Bool
  | Gzip | Bzip | Lz4 | Lzma | Snappy | Zstd => true
  | Tar | Zip | Rar | SevenZip => false

/-- The archive tokens of the `unreachable!()` arm of `chain_writer_encoder`
(compress.rs line 84): `Tar | Zip | Rar | SevenZip`. -/
def isArchive : CompressionFormat → Bool
  | Tar | Zip | Rar | SevenZip => true
  | Gzip | Bzip | Lz4 | Lzma | Snappy | Zstd => false

end CompressionFormat

/-- Rust `l as u32` where `l : i16`: sign-extension followed by
reinterpretation, i.e. the representative of `l` modulo `2^32`.
For `l ∈ [-32768, 32767]` this is `l` itself when `l ≥ 0` and
`2^32 + l` when `l < 0`. -/
def u32OfI16 (l : Int) : Nat := (l % (2 ^ 32)).toNat

/-- Rust `u32::clamp(v, lo, hi)` (defined for `lo ≤ hi`). -/
def clampNat (v lo hi : Nat) : Nat := max lo (min v hi)

/-- Rust `i32::clamp(v, lo, hi)` (defined for `lo ≤ hi`). -/
def clampInt (v lo hi : Int) : Int := max lo (min v hi)

/-- Effective gzip level, compress.rs line 52:
`level.map_or_else(Default::default, |l| gzp::Compression::new((l as u32).clamp(0, 9)))`.
`gzp::Compression` is flate2's `Compression`, whose `Default` is level 6. -/
def gzipLevel (level : Option Int) : Nat :=
  match level with
  | none => 6
  | some l => clampNat (u32OfI16 l) 0 9

/-- Effective bzip2 level, compress.rs line 58:
`level.map_or_else(Default::default, |l| bzip2::Compression::new((l as u32).clamp(1, 9)))`.
`bzip2::Compression::default()` is level 6. -/
def bzipLevel (level : Option Int) : Nat :=
  match level with
  | none => 6
  | some l => clampNat (u32OfI16 l) 1 9

/-- Effective xz/lzma level, compress.rs line 63:
`level.map_or(6, |l| (l as u32).clamp(0, 9))`. -/
def lzmaLevel (level : Option Int) : Nat :=
  match level with
  | none => 6
  | some l => clampNat (u32OfI16 l) 0 9

/-- Effective snappy level, compress.rs line 68:
`level.map_or_else(Default::default, |l| (l as u32).clamp(0, 9))`; the
`map_or_else` here produces a `u32`, whose `Default` is 0. -/
def snappyLevel (level : Option Int) : Nat :=
  match level with
  | none => 0
  | some l => clampNat (u32OfI16 l) 0 9

/-- Effective zstd level, compress.rs lines 75-77:
`level.map_or(zstd::DEFAULT_COMPRESSION_LEVEL, |l| (l as i32).clamp(min_c_level(), max_c_level()))`.
`l as i32` sign-extends an `i16`, so it is `l` itself.
`zstd::DEFAULT_COMPRESSION_LEVEL` is 3; the runtime bounds `min_c_level()`
and `max_c_level()` are parameters `zmin`, `zmax`. -/
def zstdLevel (zmin zmax : Int) (level : Option Int) : Int :=
  match level with
  | none => 3
  | some l => clampInt l zmin zmax

/-- The chain of boxed writers built by `compress_files`: the base is the
`BufWriter` around the destination file (compress.rs line 40), and each
encoder node owns the writer it wraps. -/
inductive Writer
  | file
  | gzipW (lvl : Nat) (inner : Writer)
  | bzipW (lvl : Nat) (inner : Writer)
  | lz4W (inner : Writer)
  | lzmaW (lvl : Nat) (inner : Writer)
  | snappyW (lvl : Nat) (inner : Writer)
  | zstdW (lvl : Int) (inner : Writer)
deriving DecidableEq, Repr

/-- The writer owned by an encoder node (none for the base file writer). -/
def Writer.ownedInner : Writer → Option Writer
  | .file => none
  | .gzipW _ w => some w
  | .bzipW _ w => some w
  | .lz4W w => some w
  | .lzmaW _ w => some w
  | .snappyW _ w => some w
  | .zstdW _ w => some w

/-- The `chain_writer_encoder` closure (compress.rs lines 45-87): wraps `encoder` in the
encoder for `format`, with the clamped effective level; the
`Tar | Zip | Rar | SevenZip` arm is `unreachable!()`, modelled as a panic
carried in `Except.error`. The zstd constructor cannot fail because the
level is clamped (the `unwrap` at line 82 is safe), so every streaming arm
returns `Except.ok`. -/
def chain_writer_encoder (level : Option Int) (zmin zmax : Int)
    (format : CompressionFormat) (encoder : Writer) : Except String Writer :=
  match format with
  | .Gzip => .ok (.gzipW (gzipLevel level) encoder)
  | .Bzip => .ok (.bzipW (bzipLevel level) encoder)
  | .Lz4 => .ok (.lz4W encoder)
  | .Lzma => .ok (.lzmaW (lzmaLevel level) encoder)
  | .Snappy => .ok (.snappyW (snappyLevel level) encoder)
  | .Zstd => .ok (.zstdW (zstdLevel zmin zmax level) encoder)
  | .Tar | .Zip | .Rar | .SevenZip => .error "internal error: entered unreachable code"

/-- The body of the wrapping loop (compress.rs lines 91-93) applied to an
already-reversed list: rebind `writer` to the encoder for each format in
turn, propagating the panic of the `unreachable!()` arm. -/
def buildChainAux (level : Option Int) (zmin zmax : Int) :
    List CompressionFormat → Writer → Except String Writer
  | [], w => .ok w
  | f :: fs, w =>
    match chain_writer_encoder level zmin zmax f w with
    | .error msg => .error msg
    | .ok w2 => buildChainAux level zmin zmax fs w2

/-- The wrapping loop `for format in formats.iter().rev()` of compress.rs
lines 91-93: traverse `formats` (the remaining formats, after the first)
in reverse order, wrapping `w` step by step. -/
def buildChain (level : Option Int) (zmin zmax : Int)
    (formats : List CompressionFormat) (w : Writer) : Except String Writer :=
  buildChainAux level zmin zmax formats.reverse w

theorem buildChainAux_append (level : Option Int) (zmin zmax : Int)
    (l1 l2 : List CompressionFormat) (w : Writer) :
    buildChainAux level zmin zmax (l1 ++ l2) w =
      match buildChainAux level zmin zmax l1 w with
      | .error msg => .error msg
      | .ok w2 => buildChainAux level zmin zmax l2 w2 := by
  induction l1 generalizing w with
  | nil => simp [buildChainAux]
  | cons f fs ih =>
    simp only [List.cons_append, buildChainAux]
    cases chain_writer_encoder level zmin zmax f w with
    | error msg => rfl
    | ok w2 => exact ih w2

theorem chain_writer_encoder_ok_of_streaming (level : Option Int) (zmin zmax : Int)
    (f : CompressionFormat) (hf : f.isStreaming = true) (w : Writer) :
    ∃ w2, chain_writer_encoder level zmin zmax f w = .ok w2 := by
  cases f <;> simp_all [CompressionFormat.isStreaming, chain_writer_encoder]

theorem chain_writer_encoder_ok_of_not_archive (level : Option Int) (zmin zmax : Int)
    (f : CompressionFormat) (hf : f.isArchive = false) (w : Writer) :
    ∃ w2, chain_writer_encoder level zmin zmax f w = .ok w2 := by
  cases f <;> simp_all [CompressionFormat.isArchive, chain_writer_encoder]

theorem buildChainAux_ok_of_no_archive (level : Option Int) (zmin zmax : Int)
    (l : List CompressionFormat)
    (h : ∀ f ∈ l, f.isArchive = false) (w : Writer) :
    ∃ w2, buildChainAux level zmin zmax l w = .ok w2 := by
  induction l generalizing w with
  | nil => exact ⟨w, rfl⟩
  | cons f fs ih =>
    have hf : f.isArchive = false := h f (List.mem_cons_self f fs)
    obtain ⟨w2, hw2⟩ := chain_writer_encoder_ok_of_not_archive level zmin zmax f hf w
    have h3 : ∀ g ∈ fs, g.isArchive = false := fun g hg => h g (List.mem_cons_of_mem f hg)
    obtain ⟨w3, hw3⟩ := ih h3 w2
    exact ⟨w3, by simp [buildChainAux, hw2, hw3]⟩

theorem buildChain_ok_of_no_archive (level : Option Int) (zmin zmax : Int)
    (formats : List CompressionFormat)
    (h : ∀ f ∈ formats, f.isArchive = false) (w : Writer) :
    ∃ w2, buildChain level zmin zmax formats w = .ok w2 := by
  unfold buildChain
  refine buildChainAux_ok_of_no_archive level zmin zmax formats.reverse ?_ w
  intro f hf
  exact h f (List.mem_reverse.mp hf)

/-- I/O error values returned by the external collaborators; the payload is
only used to distinguish errors. -/
abbrev IOErr := String

/-- An input path with the facts about it that `compress_files` queries:
its components (in the sense of Rust's `Path::components`) and whether
`is_dir()` holds for it. -/
structure InputFile where
  path : List String
  isDir : Bool
deriving DecidableEq, Repr

/-- Rust `Path::strip_prefix(base)` over component lists: succeeds exactly when
`base` is a component-wise prefix, returning the remaining components. -/
def stripPathPre (p base : List String) : Option (List String) :=
  if base.isPrefixOf p then some (p.drop base.length) else none

/-- Observable effects of one `compress_files` run, in order of occurrence. -/
inductive Event
  | warnZipMemory
  | askUser
  | openSource (p : List String)
  | sinkWrite (bytes : List Nat)
  | sinkFlush
  | tarBuild
  | zipBuildToBuffer
  | bufferRewind
  | rarNotice
  | stageDir (p : List String)
  | stageFile (p : List String)
  | invokeSevenZip (outp : List String)
deriving DecidableEq, Repr

/-- The result of one `compress_files` run: the `Ok` value, a returned
`Err`, or a panic (`unwrap`/`expect`/`unreachable!`/index out of bounds). -/
inductive Outcome
  | ok (committed : Bool)
  | error (e : IOErr)
  | panicked (msg : String)
deriving DecidableEq, Repr

/-- Fixed outcomes of the external calls `compress_files` makes. Each field
is the result the corresponding collaborator would produce in this run. -/
structure Env where
  /-- Result of `user_wants_to_continue(output_path, question_policy, Compression)` -/
  userAnswer : Except IOErr Bool
  /-- Result of `fs::File::open(&files[0])` -/
  openResult : Except IOErr Unit
  /-- Result of `io::copy(&mut reader, &mut writer)` in the streaming arm -/
  streamCopyResult : Except IOErr Unit
  /-- bytes of the source file, written into the sink by a successful copy -/
  sourceBytes : List Nat
  /-- Result of `archive::tar::build_archive_from_paths(...)` -/
  tarBuildResult : Except IOErr Unit
  /-- Result of `writer.flush()` after the tar build -/
  flushResult : Except IOErr Unit
  /-- Result of `archive::zip::build_archive_from_paths(...)` into `vec_buffer` -/
  zipBuildResult : Except IOErr Unit
  /-- bytes a successful zip build leaves in `vec_buffer` -/
  zipBytes : List Nat
  /-- Result of `io::copy(&mut vec_buffer, &mut writer)` -/
  zipCopyResult : Except IOErr Unit
  /-- Result of `tempfile::tempdir()`, yielding the temp directory path -/
  tempdirResult : Except IOErr (List String)
  /-- Result of `std::env::current_dir()` -/
  currentDirResult : Except IOErr (List String)
  /-- Result of `copy_recursively(filep, ...)` per input file -/
  copyRecResult : InputFile → Except IOErr Unit
  /-- Result of `fs::copy(filep, ...)` per input file -/
  fsCopyResult : InputFile → Except IOErr Unit
  /-- whether `sevenz_rust::compress_to_path(...)` succeeds -/
  sevenzOk : Bool

/-- The in-memory `Cursor<Vec<u8>>` of the Zip arm (`vec_buffer`). -/
structure BufCursor where
  data : List Nat
  pos : Nat
deriving DecidableEq, Repr

/-- Rust `Seek::rewind()`: seek to the start (infallible for a `Cursor<Vec<u8>>`). -/
def BufCursor.rewind (c : BufCursor) : BufCursor := { c with pos := 0 }

/-- Rust `io::copy` out of a cursor reads everything from the current position. -/
def BufCursor.readToEnd (c : BufCursor) : List Nat := c.data.drop c.pos

/-- The staging loop of the SevenZip arm (compress.rs lines 134-141): for
each input path in order, a directory is copied recursively under the temp
directory at its path relative to the current directory — panicking with
"copy folder error" if `strip_prefix(current_dir()?)` fails — and a plain
file is copied by its file name, panicking with "no filename in file" if it
has none. Fallible calls propagate their error (`?`). This is one loop
iteration: `Except.error` aborts the whole run with the given result,
`Except.ok` records the staging event and continues. -/
def stageOne (env : Env) (f : InputFile) : Except (Outcome × List Event) Event :=
  if f.isDir then
    match env.currentDirResult with
    | .error e => .error (.error e, [])
    | .ok cwd =>
      match stripPathPre f.path cwd with
      | none => .error (.panicked "copy folder error", [])
      | some _ =>
        match env.copyRecResult f with
        | .error e => .error (.error e, [.stageDir f.path])
        | .ok _ => .ok (.stageDir f.path)
  else
    match f.path.getLast? with
    | none => .error (.panicked "no filename in file", [])
    | some _ =>
      match env.fsCopyResult f with
      | .error e => .error (.error e, [.stageFile f.path])
      | .ok _ => .ok (.stageFile f.path)

/-- The whole staging loop: process the input paths in order, stopping at
the first abort. `Outcome.ok true` means the loop finished. -/
def stageFiles (env : Env) : List InputFile → Outcome × List Event
  | [] => (.ok true, [])
  | f :: fs =>
    match stageOne env f with
    | .error r => r
    | .ok ev =>
      let r := stageFiles env fs
      (r.1, ev :: r.2)

/-- The body of the Zip arm once it proceeds (compress.rs lines 115-125):
build the archive into the in-memory cursor, rewind it, copy its bytes into
the sink. -/
def zipProceed (env : Env) : Outcome × List Event :=
  match env.zipBuildResult with
  | .error e => (.error e, [.zipBuildToBuffer])
  | .ok _ =>
    let vec_buffer : BufCursor := ⟨env.zipBytes, env.zipBytes.length⟩
    let vec_buffer := vec_buffer.rewind
    match env.zipCopyResult with
    | .error e => (.error e, [.zipBuildToBuffer, .bufferRewind])
    | .ok _ =>
      (.ok true, [.zipBuildToBuffer, .bufferRewind, .sinkWrite vec_buffer.readToEnd])

/-- The streaming arm of the `match` on `first_format` (compress.rs lines
96-101): wrap the chained writer once more with the first format's encoder,
open `files[0]` (`unwrap` panics on failure, indexing panics on an empty
list), and `io::copy` the source bytes into the fully wrapped sink. -/
def streamArm (env : Env) (files : List InputFile) (first_format : CompressionFormat)
    (level : Option Int) (zmin zmax : Int) (writer : Writer) : Outcome × List Event :=
  match chain_writer_encoder level zmin zmax first_format writer with
  | .error msg => (.panicked msg, [])
  | .ok _ =>
    match files with
    | [] => (.panicked "index out of bounds", [])
    | f :: _ =>
      match env.openResult with
      | .error _ =>
        (.panicked "called Result unwrap on an Err value", [.openSource f.path])
      | .ok _ =>
        match env.streamCopyResult with
        | .error e => (.error e, [.openSource f.path])
        | .ok _ =>
          (.ok true, [.openSource f.path, .sinkWrite env.sourceBytes])

/-- The Tar arm (compress.rs lines 102-105): build the tar archive straight
into the sink, then flush it. -/
def tarArm (env : Env) : Outcome × List Event :=
  match env.tarBuildResult with
  | .error e => (.error e, [.tarBuild])
  | .ok _ =>
    match env.flushResult with
    | .error e => (.error e, [.tarBuild, .sinkFlush])
    | .ok _ => (.ok true, [.tarBuild, .sinkFlush])

/-- The Zip arm (compress.rs lines 106-126): when outer formats remain, warn
about in-memory buffering and ask for confirmation, returning `Ok(false)` if
the user declines; otherwise proceed with the in-memory build. -/
def zipArm (env : Env) (formats : List CompressionFormat) : Outcome × List Event :=
  if formats.isEmpty then
    zipProceed env
  else
    match env.userAnswer with
    | .error e => (.error e, [.warnZipMemory, .askUser])
    | .ok false => (.ok false, [.warnZipMemory, .askUser])
    | .ok true =>
      let r := zipProceed env
      (r.1, .warnZipMemory :: .askUser :: r.2)

/-- The SevenZip arm after the temp directory exists: stage every input
path, then run the external archiver against the staged directory,
producing `output_path` directly (`expect` panics when the archiver
fails). -/
def sevenZipRun (env : Env) (files : List InputFile) (output_path : List String) :
    Outcome × List Event :=
  match stageFiles env files with
  | (.ok _, tr) =>
    if env.sevenzOk then
      (.ok true, tr ++ [.invokeSevenZip output_path])
    else
      (.panicked "cant compress 7zip archive", tr ++ [.invokeSevenZip output_path])
  | r => r

/-- The SevenZip arm (compress.rs lines 131-144): create a temp directory
(`?` propagates its failure), then stage and archive. -/
def sevenZipArm (env : Env) (files : List InputFile) (output_path : List String) :
    Outcome × List Event :=
  match env.tempdirResult with
  | .error e => (.error e, [])
  | .ok _ => sevenZipRun env files output_path

/-- The `match first_format` dispatch of compress.rs lines 95-145, given the
already-built writer chain for the remaining formats. -/
def dispatchFirst (env : Env) (files : List InputFile)
    (first_format : CompressionFormat) (formats : List CompressionFormat)
    (output_path : List String) (level : Option Int) (zmin zmax : Int)
    (writer : Writer) : Outcome × List Event :=
  match first_format with
  | .Gzip | .Bzip | .Lz4 | .Lzma | .Snappy | .Zstd =>
    streamArm env files first_format level zmin zmax writer
  | .Tar => tarArm env
  | .Zip => zipArm env formats
  | .Rar => (.ok false, [.rarNotice])
  | .SevenZip => sevenZipArm env files output_path

/-- The `compress_files` routine (compress.rs lines 29-148). `extensions` is the
flattened compression-format list; `split_first_compression_format` (in
`src/extension.rs`, outside the given sources; modelled from the spec:
splits the non-empty token sequence into its first element and the rest,
panicking on an empty sequence) yields `(first_format, formats)`. The
wrapping loop chains encoders for `formats` in reverse order over the
buffered file writer, then the `match` on `first_format` drives the data
movement. `zmin`/`zmax` are zstd's runtime level bounds. -/
def compress_files (env : Env) (files : List InputFile)
    (extensions : List CompressionFormat) (output_path : List String)
    (level : Option Int) (zmin zmax : Int) : Outcome × List Event :=
  match extensions with
  | [] => (.panicked "removal index (is 0) should be < len (is 0)", [])
  | first_format :: formats =>
    match buildChain level zmin zmax formats Writer.file with
    | .error msg => (.panicked msg, [])
    | .ok writer =>
      dispatchFirst env files first_format formats output_path level zmin zmax writer

/-- The staging event the SevenZip arm records for one input path. -/
def stageEvent (f : InputFile) : Event :=
  if f.isDir then .stageDir f.path else .stageFile f.path

theorem stageFiles_cons_ok (env : Env) (f : InputFile) (fs : List InputFile)
    (ev : Event) (hso : stageOne env f = .ok ev) :
    stageFiles env (f :: fs) = ((stageFiles env fs).1, ev :: (stageFiles env fs).2) := by
  conv_lhs => unfold stageFiles
  rw [hso]

theorem stageFiles_cons_error (env : Env) (f : InputFile) (fs : List InputFile)
    (r : Outcome × List Event) (hso : stageOne env f = .error r) :
    stageFiles env (f :: fs) = r := by
  conv_lhs => unfold stageFiles
  rw [hso]

theorem stageOne_ok_event (env : Env) (f : InputFile) (ev : Event)
    (h : stageOne env f = .ok ev) : ev = stageEvent f := by
  unfold stageOne at h
  unfold stageEvent
  repeat' split at h
  all_goals simp_all

theorem stageOne_error_not_ok (env : Env) (f : InputFile)
    (r : Outcome × List Event) (h : stageOne env f = .error r) :
    ∀ b, r.1 ≠ Outcome.ok b := by
  unfold stageOne at h
  repeat' split at h
  all_goals
    (first
      | exact Except.noConfusion h
      | (injection h with h2; subst h2; simp))

theorem stageOne_error_events (env : Env) (f : InputFile)
    (r : Outcome × List Event) (h : stageOne env f = .error r) :
    ∀ e ∈ r.2, (∃ p, e = .stageDir p) ∨ ∃ p, e = .stageFile p := by
  unfold stageOne at h
  repeat' split at h
  all_goals
    (first
      | exact Except.noConfusion h
      | (injection h with h2; subst h2; intro e he; simp at he))
  all_goals
    (first
      | exact Or.inl ⟨f.path, he⟩
      | exact Or.inr ⟨f.path, he⟩)

theorem stageFiles_ok_true (env : Env) (fs : List InputFile) (b : Bool)
    (h : (stageFiles env fs).1 = .ok b) : b = true := by
  induction fs with
  | nil => simpa [stageFiles] using h
  | cons f fs ih =>
    cases hso : stageOne env f with
    | error r =>
      rw [stageFiles_cons_error env f fs r hso] at h
      exact absurd h (stageOne_error_not_ok env f r hso b)
    | ok ev =>
      rw [stageFiles_cons_ok env f fs ev hso] at h
      exact ih h

theorem stageFiles_trace_of_ok (env : Env) (fs : List InputFile) (b : Bool)
    (h : (stageFiles env fs).1 = .ok b) :
    (stageFiles env fs).2 = fs.map stageEvent := by
  induction fs with
  | nil => simp [stageFiles]
  | cons f fs ih =>
    cases hso : stageOne env f with
    | error r =>
      rw [stageFiles_cons_error env f fs r hso] at h
      exact absurd h (stageOne_error_not_ok env f r hso b)
    | ok ev =>
      rw [stageFiles_cons_ok env f fs ev hso] at h ⊢
      simp [ih h, stageOne_ok_event env f ev hso]

theorem stageFiles_events_staging (env : Env) (fs : List InputFile) :
    ∀ e ∈ (stageFiles env fs).2, (∃ p, e = .stageDir p) ∨ ∃ p, e = .stageFile p := by
  induction fs with
  | nil => simp [stageFiles]
  | cons f fs ih =>
    intro e he
    cases hso : stageOne env f with
    | error r =>
      rw [stageFiles_cons_error env f fs r hso] at he
      exact stageOne_error_events env f r hso e he
    | ok ev =>
      rw [stageFiles_cons_ok env f fs ev hso] at he
      simp at he
      rcases he with he | he
      · rw [he, stageOne_ok_event env f ev hso]
        unfold stageEvent
        by_cases hd : f.isDir
        · simp [hd]
        · simp [hd]
      · exact ih e he

theorem stageFiles_append_of_ok (env : Env) (l1 l2 : List InputFile) (b : Bool)
    (h : (stageFiles env l1).1 = .ok b) :
    stageFiles env (l1 ++ l2) =
      ((stageFiles env l2).1, (stageFiles env l1).2 ++ (stageFiles env l2).2) := by
  induction l1 with
  | nil => simp [stageFiles]
  | cons f fs ih =>
    have hcons : (f :: fs) ++ l2 = f :: (fs ++ l2) := rfl
    rw [hcons]
    cases hso : stageOne env f with
    | error r =>
      rw [stageFiles_cons_error env f fs r hso] at h
      exact absurd h (stageOne_error_not_ok env f r hso b)
    | ok ev =>
      rw [stageFiles_cons_ok env f fs ev hso] at h
      rw [stageFiles_cons_ok env f (fs ++ l2) ev hso,
          stageFiles_cons_ok env f fs ev hso]
      simp [ih h]

theorem compress_files_cons (env : Env) (files : List InputFile)
    (first : CompressionFormat) (rest : List CompressionFormat)
    (output_path : List String) (level : Option Int) (zmin zmax : Int) :
    compress_files env files (first :: rest) output_path level zmin zmax =
      match buildChain level zmin zmax rest Writer.file with
      | .error msg => (.panicked msg, [])
      | .ok writer => dispatchFirst env files first rest output_path level zmin zmax writer :=
  rfl

theorem compress_files_cons_chain_ok (env : Env) (files : List InputFile)
    (first : CompressionFormat) (rest : List CompressionFormat)
    (output_path : List String) (level : Option Int) (zmin zmax : Int) (w : Writer)
    (hch : buildChain level zmin zmax rest Writer.file = .ok w) :
    compress_files env files (first :: rest) output_path level zmin zmax =
      dispatchFirst env files first rest output_path level zmin zmax w := by
  rw [compress_files_cons, hch]

theorem compress_files_cons_chain_error (env : Env) (files : List InputFile)
    (first : CompressionFormat) (rest : List CompressionFormat)
    (output_path : List String) (level : Option Int) (zmin zmax : Int) (msg : String)
    (hch : buildChain level zmin zmax rest Writer.file = .error msg) :
    compress_files env files (first :: rest) output_path level zmin zmax =
      (.panicked msg, []) := by
  rw [compress_files_cons, hch]

theorem dispatchFirst_streaming (env : Env) (files : List InputFile)
    (first : CompressionFormat) (hf : first.isStreaming = true)
    (formats : List CompressionFormat) (output_path : List String)
    (level : Option Int) (zmin zmax : Int) (w : Writer) :
    dispatchFirst env files first formats output_path level zmin zmax w =
      streamArm env files first level zmin zmax w := by
  cases first <;> simp_all [CompressionFormat.isStreaming, dispatchFirst]

theorem streamArm_ok_true (env : Env) (files : List InputFile)
    (first : CompressionFormat) (level : Option Int) (zmin zmax : Int) (w : Writer)
    (b : Bool) (tr : List Event)
    (h : streamArm env files first level zmin zmax w = (.ok b, tr)) : b = true := by
  unfold streamArm at h
  repeat' split at h
  all_goals simp_all

theorem tarArm_ok_true (env : Env) (b : Bool) (tr : List Event)
    (h : tarArm env = (.ok b, tr)) : b = true := by
  unfold tarArm at h
  repeat' split at h
  all_goals simp_all

theorem zipProceed_ok_true (env : Env) (b : Bool) (tr : List Event)
    (h : zipProceed env = (.ok b, tr)) : b = true := by
  unfold zipProceed at h
  repeat' split at h
  all_goals simp_all

theorem zipArm_ok_false_iff (env : Env) (formats : List CompressionFormat)
    (b : Bool) (tr : List Event) (h : zipArm env formats = (.ok b, tr)) :
    b = false ↔ (formats ≠ [] ∧ env.userAnswer = .ok false) := by
  unfold zipArm at h
  split at h
  · have hb := zipProceed_ok_true env b tr h
    have he : formats = [] := by simp_all [List.isEmpty_iff]
    simp [hb, he]
  · have hne : formats ≠ [] := by simp_all [List.isEmpty_iff]
    split at h
    · simp_all
    · simp_all
    · have h1 : (zipProceed env).1 = .ok b := by
        have h2 := congrArg Prod.fst h
        simpa using h2
      have hb := zipProceed_ok_true env b (zipProceed env).2 (by rw [← h1])
      simp_all

theorem sevenZipArm_eq_run (env : Env) (files : List InputFile)
    (output_path : List String) (tmp : List String)
    (ht : env.tempdirResult = .ok tmp) :
    sevenZipArm env files output_path = sevenZipRun env files output_path := by
  unfold sevenZipArm
  rw [ht]

theorem sevenZipRun_stage_ok (env : Env) (files : List InputFile)
    (output_path : List String) (b : Bool) (tr : List Event)
    (hsf : stageFiles env files = (.ok b, tr)) :
    sevenZipRun env files output_path =
      if env.sevenzOk then
        (.ok true, tr ++ [.invokeSevenZip output_path])
      else
        (.panicked "cant compress 7zip archive", tr ++ [.invokeSevenZip output_path]) := by
  unfold sevenZipRun
  rw [hsf]

theorem sevenZipRun_stage_error (env : Env) (files : List InputFile)
    (output_path : List String) (e : IOErr) (tr : List Event)
    (hsf : stageFiles env files = (.error e, tr)) :
    sevenZipRun env files output_path = (.error e, tr) := by
  unfold sevenZipRun
  rw [hsf]

theorem sevenZipRun_stage_panicked (env : Env) (files : List InputFile)
    (output_path : List String) (m : String) (tr : List Event)
    (hsf : stageFiles env files = (.panicked m, tr)) :
    sevenZipRun env files output_path = (.panicked m, tr) := by
  unfold sevenZipRun
  rw [hsf]

theorem sevenZipRun_ok_true (env : Env) (files : List InputFile)
    (output_path : List String) (b : Bool) (tr : List Event)
    (h : sevenZipRun env files output_path = (.ok b, tr)) : b = true := by
  rcases hsf : stageFiles env files with ⟨out, tr2⟩
  cases out with
  | ok b2 =>
    rw [sevenZipRun_stage_ok env files output_path b2 tr2 hsf] at h
    cases hz : env.sevenzOk <;> rw [hz] at h <;> simp_all
  | error e =>
    rw [sevenZipRun_stage_error env files output_path e tr2 hsf] at h
    simp at h
  | panicked m =>
    rw [sevenZipRun_stage_panicked env files output_path m tr2 hsf] at h
    simp at h

theorem sevenZipArm_ok_true (env : Env) (files : List InputFile)
    (output_path : List String) (b : Bool) (tr : List Event)
    (h : sevenZipArm env files output_path = (.ok b, tr)) : b = true := by
  unfold sevenZipArm at h
  cases ht : env.tempdirResult with
  | error e => rw [ht] at h; simp at h
  | ok tmp =>
    rw [ht] at h
    exact sevenZipRun_ok_true env files output_path b tr h

/-- A run in which every external call succeeds. -/
def env0 : Env :=
  { userAnswer := .ok true
    openResult := .ok ()
    streamCopyResult := .ok ()
    sourceBytes := [1, 2, 3]
    tarBuildResult := .ok ()
    flushResult := .ok ()
    zipBuildResult := .ok ()
    zipBytes := [7, 8]
    zipCopyResult := .ok ()
    tempdirResult := .ok ["tmp"]
    currentDirResult := .ok ["home"]
    copyRecResult := fun _ => .ok ()
    fsCopyResult := fun _ => .ok ()
    sevenzOk := true }

/-- A run in which opening the source file fails and all else succeeds. -/
def envOpenFail : Env := { env0 with openResult := .error "open failed" }

/-- A run in which the user declines the confirmation prompt. -/
def envDecline : Env := { env0 with userAnswer := .ok false }

theorem u32OfI16_nonneg (l : Int) (h0 : 0 ≤ l) (h1 : l ≤ 32767) :
    u32OfI16 l = l.toNat := by
  unfold u32OfI16
  omega

theorem u32OfI16_neg_ge (l : Int) (h0 : -32768 ≤ l) (h1 : l < 0) :
    9 ≤ u32OfI16 l := by
  unfold u32OfI16
  omega

theorem zipProceed_success (env : Env) (hb : env.zipBuildResult = .ok ())
    (hc : env.zipCopyResult = .ok ()) :
    zipProceed env =
      (.ok true, [.zipBuildToBuffer, .bufferRewind, .sinkWrite env.zipBytes]) := by
  simp [zipProceed, hb, hc, BufCursor.rewind, BufCursor.readToEnd]

theorem zipArm_warn_ask_mem (env : Env) (formats : List CompressionFormat) :
    (Event.warnZipMemory ∈ (zipArm env formats).2 ↔ formats ≠ []) ∧
    (Event.askUser ∈ (zipArm env formats).2 ↔ formats ≠ []) := by
  unfold zipArm zipProceed
  repeat' split
  all_goals simp_all [List.isEmpty_iff]

theorem zipArm_decline (env : Env) (formats : List CompressionFormat)
    (hne : formats ≠ []) (hans : env.userAnswer = .ok false) :
    zipArm env formats = (.ok false, [.warnZipMemory, .askUser]) := by
  have he : formats.isEmpty = false := by simp [List.isEmpty_iff, hne]
  simp [zipArm, he, hans]

theorem sevenZipRun_events (env : Env) (files : List InputFile)
    (output_path : List String) :
    ∀ e ∈ (sevenZipRun env files output_path).2,
      (∃ p, e = Event.stageDir p) ∨ (∃ p, e = Event.stageFile p) ∨
        e = Event.invokeSevenZip output_path := by
  rcases hsf : stageFiles env files with ⟨out, tr⟩
  have htr := stageFiles_events_staging env files
  rw [hsf] at htr
  simp only [] at htr
  intro e he
  have hstg : e ∈ tr →
      (∃ p, e = Event.stageDir p) ∨ (∃ p, e = Event.stageFile p) ∨
        e = Event.invokeSevenZip output_path := by
    intro hin
    rcases htr e hin with ⟨p, hp⟩ | ⟨p, hp⟩
    · exact Or.inl ⟨p, hp⟩
    · exact Or.inr (Or.inl ⟨p, hp⟩)
  cases out with
  | ok b =>
    rw [sevenZipRun_stage_ok env files output_path b tr hsf] at he
    cases hz : env.sevenzOk <;> rw [hz] at he <;> simp at he <;>
        rcases he with he | he
    · exact hstg he
    · exact Or.inr (Or.inr he)
    · exact hstg he
    · exact Or.inr (Or.inr he)
  | error er =>
    rw [sevenZipRun_stage_error env files output_path er tr hsf] at he
    exact hstg he
  | panicked m =>
    rw [sevenZipRun_stage_panicked env files output_path m tr hsf] at he
    exact hstg he

theorem sevenZipArm_events (env : Env) (files : List InputFile)
    (output_path : List String) :
    ∀ e ∈ (sevenZipArm env files output_path).2,
      (∃ p, e = Event.stageDir p) ∨ (∃ p, e = Event.stageFile p) ∨
        e = Event.invokeSevenZip output_path := by
  unfold sevenZipArm
  cases ht : env.tempdirResult with
  | error e2 => simp
  | ok tmp => exact sevenZipRun_events env files output_path

theorem sevenZipArm_success_trace (env : Env) (files : List InputFile)
    (output_path : List String) (tmp : List String)
    (ht : env.tempdirResult = .ok tmp)
    (h : (sevenZipArm env files output_path).1 = .ok true) :
    (sevenZipArm env files output_path).2 =
      files.map stageEvent ++ [Event.invokeSevenZip output_path] := by
  rw [sevenZipArm_eq_run env files output_path tmp ht] at h ⊢
  rcases hsf : stageFiles env files with ⟨out, tr⟩
  have htr := stageFiles_trace_of_ok env files
  rw [hsf] at htr
  simp only [] at htr
  cases out with
  | ok b =>
    rw [sevenZipRun_stage_ok env files output_path b tr hsf] at h ⊢
    have htr2 : tr = files.map stageEvent := htr b rfl
    cases hz : env.sevenzOk <;> rw [hz] at h <;> simp_all
  | error e =>
    rw [sevenZipRun_stage_error env files output_path e tr hsf] at h
    simp at h
  | panicked m =>
    rw [sevenZipRun_stage_panicked env files output_path m tr hsf] at h
    simp at h

theorem clampNat_le (v lo hi : Nat) (h : lo ≤ hi) : clampNat v lo hi ≤ hi := by
  unfold clampNat
  omega

/-- C5: the wrapping loop traverses the remaining formats in reverse order —
the last-listed (outermost) format is applied first, directly around the
destination writer, and the first-listed is applied last, at the tip of the
chain — and each wrapping step produces an encoder that owns the previous
writer. -/
theorem claim_C5_wrapping_reverse_order :
    (∀ (level : Option Int) (zmin zmax : Int) (f : CompressionFormat)
        (fs : List CompressionFormat) (w : Writer),
      buildChain level zmin zmax (f :: fs) w =
        match buildChain level zmin zmax fs w with
        | .error msg => .error msg
        | .ok w2 => chain_writer_encoder level zmin zmax f w2) ∧
    (∀ (level : Option Int) (zmin zmax : Int) (fs : List CompressionFormat)
        (g : CompressionFormat) (w : Writer),
      buildChain level zmin zmax (fs ++ [g]) w =
        match chain_writer_encoder level zmin zmax g w with
        | .error msg => .error msg
        | .ok w2 => buildChain level zmin zmax fs w2) ∧
    (∀ (level : Option Int) (zmin zmax : Int) (f : CompressionFormat) (w : Writer),
      f.isArchive = false →
      ∃ w2, chain_writer_encoder level zmin zmax f w = .ok w2 ∧
        w2.ownedInner = some w) := by
  refine ⟨?_, ?_, ?_⟩
  · intro level zmin zmax f fs w
    unfold buildChain
    rw [show (f :: fs).reverse = fs.reverse ++ [f] from by simp]
    rw [buildChainAux_append]
    cases buildChainAux level zmin zmax fs.reverse w with
    | error msg => rfl
    | ok w2 =>
      show buildChainAux level zmin zmax [f] w2 =
        chain_writer_encoder level zmin zmax f w2
      unfold buildChainAux
      cases chain_writer_encoder level zmin zmax f w2 with
      | error msg => rfl
      | ok w3 => rfl
  · intro level zmin zmax fs g w
    unfold buildChain
    rw [show (fs ++ [g]).reverse = g :: fs.reverse from by simp]
    show (match chain_writer_encoder level zmin zmax g w with
          | Except.error msg => Except.error msg
          | Except.ok w2 => buildChainAux level zmin zmax fs.reverse w2) =
        (match chain_writer_encoder level zmin zmax g w with
          | Except.error msg => Except.error msg
          | Except.ok w2 => buildChainAux level zmin zmax fs.reverse w2)
    rfl
  · intro level zmin zmax f w hf
    cases f <;>
      simp_all [CompressionFormat.isArchive, chain_writer_encoder, Writer.ownedInner]

/-- C5 witness: the three parts of the theorem at concrete inputs. -/
theorem claim_C5_witness :
    (buildChain none 0 22 (.Gzip :: [.Zstd]) .file =
      match buildChain none 0 22 [.Zstd] .file with
      | .error msg => .error msg
      | .ok w2 => chain_writer_encoder none 0 22 .Gzip w2) ∧
    (buildChain none 0 22 ([.Gzip] ++ [.Zstd]) .file =
      match chain_writer_encoder none 0 22 .Zstd .file with
      | .error msg => .error msg
      | .ok w2 => buildChain none 0 22 [.Gzip] w2) ∧
    (∃ w2, chain_writer_encoder none 0 22 .Lzma .file = .ok w2 ∧
      w2.ownedInner = some .file) :=
  ⟨claim_C5_wrapping_reverse_order.1 none 0 22 .Gzip [.Zstd] .file,
   claim_C5_wrapping_reverse_order.2.1 none 0 22 [.Gzip] .Zstd .file,
   claim_C5_wrapping_reverse_order.2.2 none 0 22 .Lzma .file (by decide)⟩

/-- C6: when the archive tokens Tar/Zip/Rar/SevenZip occur at most as the
first (innermost) element of the format sequence, the wrapping loop over
the remaining formats never reaches the `unreachable!()` arm of
`chain_writer_encoder`: it completes with a built writer chain. -/
theorem claim_C6_no_unreachable (level : Option Int) (zmin zmax : Int)
    (rest : List CompressionFormat) (w : Writer)
    (harch : ∀ f ∈ rest, f.isArchive = false) :
    ∃ w2, buildChain level zmin zmax rest w = .ok w2 :=
  buildChain_ok_of_no_archive level zmin zmax rest harch w

/-- C6 witness: the remaining formats of `[Tar, Gzip, Zstd]`. -/
theorem claim_C6_witness :
    ∃ w2, buildChain none 0 22 [.Gzip, .Zstd] .file = .ok w2 :=
  claim_C6_no_unreachable none 0 22 [.Gzip, .Zstd] .file (by decide)

/-- C7 as stated is false: for negative requested levels the `i16` value is
cast to `u32` before clamping, so it wraps to a huge value and clamps to
the domain maximum, not to the nearest boundary (the minimum); requesting
-1 with Gzip yields 9 while the nearest boundary 0 yields 0, which also
refutes monotonicity. -/
theorem claim_C7_counterexample :
    gzipLevel (some (-1)) = 9 ∧ gzipLevel (some 0) = 0 ∧ (9 : Nat) ≠ 0 ∧
    bzipLevel (some (-1)) = 9 ∧ bzipLevel (some 1) = 1 ∧
    lzmaLevel (some (-1)) = 9 ∧ lzmaLevel (some 0) = 0 ∧
    snappyLevel (some (-1)) = 9 ∧ snappyLevel (some 0) = 0 := by
  decide

/-- C7 amended: for requested levels `0 ≤ L ≤ 32767` the effective level of
every bounded codec is the clamp of `L` into its domain (Gzip `[0,9]`,
Bzip `[1,9]`, Lzma `[0,9]`, Snappy `[0,9]`, Zstd `[zmin,zmax]`); for
negative `L` the u32 cast wraps and Gzip/Bzip/Lzma/Snappy yield the domain
maximum 9, while Zstd (an i32 cast) clamps sign-correctly on the whole
range; clamping is idempotent, the mapping is monotonic on the
non-negative range (Zstd on the whole range); Zstd with requested level 25
and max level 22 yields 22 and the operation succeeds. -/
theorem claim_C7_clamping_amended :
    (∀ l : Int, 0 ≤ l → l ≤ 32767 →
      gzipLevel (some l) = clampNat l.toNat 0 9 ∧
      bzipLevel (some l) = clampNat l.toNat 1 9 ∧
      lzmaLevel (some l) = clampNat l.toNat 0 9 ∧
      snappyLevel (some l) = clampNat l.toNat 0 9) ∧
    (∀ l : Int, -32768 ≤ l → l < 0 →
      gzipLevel (some l) = 9 ∧ bzipLevel (some l) = 9 ∧
      lzmaLevel (some l) = 9 ∧ snappyLevel (some l) = 9) ∧
    (∀ zmin zmax l : Int, zstdLevel zmin zmax (some l) = clampInt l zmin zmax) ∧
    (∀ l : Int, -32768 ≤ l → l ≤ 32767 →
      gzipLevel (some (gzipLevel (some l) : Int)) = gzipLevel (some l) ∧
      bzipLevel (some (bzipLevel (some l) : Int)) = bzipLevel (some l) ∧
      lzmaLevel (some (lzmaLevel (some l) : Int)) = lzmaLevel (some l) ∧
      snappyLevel (some (snappyLevel (some l) : Int)) = snappyLevel (some l)) ∧
    (∀ zmin zmax l : Int, zmin ≤ zmax →
      zstdLevel zmin zmax (some (zstdLevel zmin zmax (some l))) =
        zstdLevel zmin zmax (some l)) ∧
    (∀ l1 l2 : Int, 0 ≤ l1 → l1 ≤ l2 → l2 ≤ 32767 →
      gzipLevel (some l1) ≤ gzipLevel (some l2) ∧
      bzipLevel (some l1) ≤ bzipLevel (some l2) ∧
      lzmaLevel (some l1) ≤ lzmaLevel (some l2) ∧
      snappyLevel (some l1) ≤ snappyLevel (some l2)) ∧
    (∀ zmin zmax l1 l2 : Int, l1 ≤ l2 →
      zstdLevel zmin zmax (some l1) ≤ zstdLevel zmin zmax (some l2)) ∧
    (∀ zmin : Int, zmin ≤ 22 → zstdLevel zmin 22 (some 25) = 22) ∧
    (∀ (env : Env) (f : InputFile) (output : List String) (zmin : Int),
      env.openResult = .ok () → env.streamCopyResult = .ok () →
      compress_files env [f] [.Zstd] output (some 25) zmin 22 =
        (.ok true, [.openSource f.path, .sinkWrite env.sourceBytes])) := by
  refine ⟨?_, ?_, ?_, ?_, ?_, ?_, ?_, ?_, ?_⟩
  · intro l h0 h1
    have hu := u32OfI16_nonneg l h0 h1
    simp [gzipLevel, bzipLevel, lzmaLevel, snappyLevel, hu]
  · intro l h0 h1
    have h9 := u32OfI16_neg_ge l h0 h1
    simp only [gzipLevel, bzipLevel, lzmaLevel, snappyLevel, clampNat]
    refine ⟨?_, ?_, ?_, ?_⟩ <;> omega
  · intro zmin zmax l
    rfl
  · intro l h0 h1
    simp only [gzipLevel, bzipLevel, lzmaLevel, snappyLevel, clampNat, u32OfI16]
    refine ⟨?_, ?_, ?_, ?_⟩ <;> omega
  · intro zmin zmax l h
    simp only [zstdLevel, clampInt]
    omega
  · intro l1 l2 h0 h12 h2
    simp only [gzipLevel, bzipLevel, lzmaLevel, snappyLevel, clampNat, u32OfI16]
    refine ⟨?_, ?_, ?_, ?_⟩ <;> omega
  · intro zmin zmax l1 l2 h
    simp only [zstdLevel, clampInt]
    omega
  · intro zmin h
    simp only [zstdLevel, clampInt]
    omega
  · intro env f output zmin hopen hcopy
    have hch : buildChain (some 25) zmin 22 [] Writer.file = .ok Writer.file := rfl
    rw [compress_files_cons_chain_ok env [f] .Zstd [] output (some 25) zmin 22
      Writer.file hch]
    simp [dispatchFirst, streamArm, chain_writer_encoder, hopen, hcopy]

/-- C7 witness: the amended theorem at concrete inputs, in particular the
Zstd level-25-with-max-22 scenario on an all-successful run. -/
theorem claim_C7_witness :
    (gzipLevel (some 11) = clampNat (Int.toNat 11) 0 9 ∧
     bzipLevel (some 11) = clampNat (Int.toNat 11) 1 9 ∧
     lzmaLevel (some 11) = clampNat (Int.toNat 11) 0 9 ∧
     snappyLevel (some 11) = clampNat (Int.toNat 11) 0 9) ∧
    (gzipLevel (some (-2)) = 9 ∧ bzipLevel (some (-2)) = 9 ∧
     lzmaLevel (some (-2)) = 9 ∧ snappyLevel (some (-2)) = 9) ∧
    zstdLevel (-5) 22 (some 100) = clampInt 100 (-5) 22 ∧
    (gzipLevel (some (gzipLevel (some 7) : Int)) = gzipLevel (some 7) ∧
     bzipLevel (some (bzipLevel (some 7) : Int)) = bzipLevel (some 7) ∧
     lzmaLevel (some (lzmaLevel (some 7) : Int)) = lzmaLevel (some 7) ∧
     snappyLevel (some (snappyLevel (some 7) : Int)) = snappyLevel (some 7)) ∧
    zstdLevel (-5) 22 (some (zstdLevel (-5) 22 (some 100))) =
      zstdLevel (-5) 22 (some 100) ∧
    (gzipLevel (some 3) ≤ gzipLevel (some 12) ∧
     bzipLevel (some 3) ≤ bzipLevel (some 12) ∧
     lzmaLevel (some 3) ≤ lzmaLevel (some 12) ∧
     snappyLevel (some 3) ≤ snappyLevel (some 12)) ∧
    zstdLevel (-5) 22 (some 3) ≤ zstdLevel (-5) 22 (some 12) ∧
    zstdLevel (-5) 22 (some 25) = 22 ∧
    compress_files env0 [⟨["a"], false⟩] [.Zstd] [] (some 25) (-5) 22 =
      (.ok true, [.openSource ["a"], .sinkWrite env0.sourceBytes]) :=
  ⟨claim_C7_clamping_amended.1 11 (by decide) (by decide),
   claim_C7_clamping_amended.2.1 (-2) (by decide) (by decide),
   claim_C7_clamping_amended.2.2.1 (-5) 22 100,
   claim_C7_clamping_amended.2.2.2.1 7 (by decide) (by decide),
   claim_C7_clamping_amended.2.2.2.2.1 (-5) 22 100 (by decide),
   claim_C7_clamping_amended.2.2.2.2.2.1 3 12 (by decide) (by decide) (by decide),
   claim_C7_clamping_amended.2.2.2.2.2.2.1 (-5) 22 3 12 (by decide),
   claim_C7_clamping_amended.2.2.2.2.2.2.2.1 (-5) (by decide),
   claim_C7_clamping_amended.2.2.2.2.2.2.2.2 env0 ⟨["a"], false⟩ [] (-5) rfl rfl⟩

/-- C1: a non-error run returns `Ok(false)` exactly when the first format is
Rar, or the first format is Zip with outer formats remaining and the user
declining the prompt; every other non-error run returns `Ok(true)`.
Moreover the Rar abort and the Zip-decline abort do produce
`Ok(false)` whenever the wrapping loop itself completes. -/
theorem claim_C1_return_convention :
    (∀ (env : Env) (files : List InputFile) (first : CompressionFormat)
        (rest : List CompressionFormat) (output : List String)
        (level : Option Int) (zmin zmax : Int) (b : Bool) (tr : List Event),
      compress_files env files (first :: rest) output level zmin zmax = (.ok b, tr) →
      (b = false ↔ (first = CompressionFormat.Rar ∨
        (first = CompressionFormat.Zip ∧ rest ≠ [] ∧ env.userAnswer = .ok false)))) ∧
    (∀ (env : Env) (files : List InputFile) (rest : List CompressionFormat)
        (output : List String) (level : Option Int) (zmin zmax : Int),
      (∀ f ∈ rest, f.isArchive = false) →
      compress_files env files (CompressionFormat.Rar :: rest) output level zmin zmax =
        (.ok false, [.rarNotice])) ∧
    (∀ (env : Env) (files : List InputFile) (rest : List CompressionFormat)
        (output : List String) (level : Option Int) (zmin zmax : Int),
      (∀ f ∈ rest, f.isArchive = false) → rest ≠ [] →
      env.userAnswer = .ok false →
      compress_files env files (CompressionFormat.Zip :: rest) output level zmin zmax =
        (.ok false, [.warnZipMemory, .askUser])) := by
  refine ⟨?_, ?_, ?_⟩
  · intro env files first rest output level zmin zmax b tr h
    cases hch : buildChain level zmin zmax rest Writer.file with
    | error m =>
      rw [compress_files_cons_chain_error env files first rest output level zmin zmax
        m hch] at h
      exact absurd h (by simp)
    | ok w =>
      rw [compress_files_cons_chain_ok env files first rest output level zmin zmax
        w hch] at h
      cases first
      case Gzip | Bzip | Lz4 | Lzma | Snappy | Zstd =>
        simp only [dispatchFirst] at h
        have hb := streamArm_ok_true env files _ level zmin zmax w b tr h
        simp [hb]
      case Tar =>
        simp only [dispatchFirst] at h
        have hb := tarArm_ok_true env b tr h
        simp [hb]
      case Zip =>
        simp only [dispatchFirst] at h
        have hiff := zipArm_ok_false_iff env rest b tr h
        rw [hiff]
        simp
      case Rar =>
        simp only [dispatchFirst] at h
        simp at h
        simp [h.1.symm]
      case SevenZip =>
        simp only [dispatchFirst] at h
        have hb := sevenZipArm_ok_true env files output b tr h
        simp [hb]
  · intro env files rest output level zmin zmax harch
    obtain ⟨w, hw⟩ := buildChain_ok_of_no_archive level zmin zmax rest harch Writer.file
    rw [compress_files_cons_chain_ok env files .Rar rest output level zmin zmax w hw]
    rfl
  · intro env files rest output level zmin zmax harch hne hans
    obtain ⟨w, hw⟩ := buildChain_ok_of_no_archive level zmin zmax rest harch Writer.file
    rw [compress_files_cons_chain_ok env files .Zip rest output level zmin zmax w hw]
    simp only [dispatchFirst]
    exact zipArm_decline env rest hne hans

/-- C1 witness: the Rar abort, the Zip-decline abort, and the return-value
biconditional at those runs. -/
theorem claim_C1_witness :
    (false = false ↔ (CompressionFormat.Rar = CompressionFormat.Rar ∨
      (CompressionFormat.Rar = CompressionFormat.Zip ∧
        ([] : List CompressionFormat) ≠ [] ∧ env0.userAnswer = .ok false))) ∧
    compress_files env0 [] [CompressionFormat.Rar] [] none 0 22 =
      (.ok false, [.rarNotice]) ∧
    compress_files envDecline [] [CompressionFormat.Zip, CompressionFormat.Gzip]
        [] none 0 22 = (.ok false, [.warnZipMemory, .askUser]) :=
  ⟨claim_C1_return_convention.1 env0 [] .Rar [] [] none 0 22 false [.rarNotice]
      (by decide),
   claim_C1_return_convention.2.1 env0 [] [] [] none 0 22 (by decide),
   claim_C1_return_convention.2.2 envDecline [] [.Gzip] [] none 0 22
      (by decide) (by decide) rfl⟩

/-- C3: with a Zip first format, remaining outer formats, and a declining
user, the run returns `Ok(false)`, the zip archive builder is never
invoked, and nothing is written into the sink. -/
theorem claim_C3_zip_decline_no_build (env : Env) (files : List InputFile)
    (rest : List CompressionFormat) (output : List String)
    (level : Option Int) (zmin zmax : Int)
    (harch : ∀ f ∈ rest, f.isArchive = false) (hne : rest ≠ [])
    (hans : env.userAnswer = .ok false) :
    ∀ out tr, compress_files env files (.Zip :: rest) output level zmin zmax =
        (out, tr) →
      out = .ok false ∧ Event.zipBuildToBuffer ∉ tr ∧
        ∀ bs, Event.sinkWrite bs ∉ tr := by
  obtain ⟨w, hw⟩ := buildChain_ok_of_no_archive level zmin zmax rest harch Writer.file
  intro out tr h
  rw [compress_files_cons_chain_ok env files .Zip rest output level zmin zmax w hw] at h
  simp only [dispatchFirst] at h
  rw [zipArm_decline env rest hne hans] at h
  rcases h with ⟨rfl, rfl⟩
  exact ⟨rfl, by simp, by simp⟩

/-- C3 witness: the declining run with formats `[Zip, Gzip]`. -/
theorem claim_C3_witness :
    (Outcome.ok false) = Outcome.ok false ∧
      Event.zipBuildToBuffer ∉ [Event.warnZipMemory, Event.askUser] ∧
      ∀ bs, Event.sinkWrite bs ∉ [Event.warnZipMemory, Event.askUser] :=
  claim_C3_zip_decline_no_build envDecline [] [.Gzip] [] none 0 22
    (by decide) (by decide) rfl (.ok false) [.warnZipMemory, .askUser] (by decide)

/-- C4: in the Zip branch the user is warned and asked iff outer formats
remain; every proceeding case builds the archive into the in-memory
buffer, rewinds it, and copies all of its bytes into the sink. -/
theorem claim_C4_zip_buffering (env : Env) (files : List InputFile)
    (rest : List CompressionFormat) (output : List String)
    (level : Option Int) (zmin zmax : Int)
    (harch : ∀ f ∈ rest, f.isArchive = false) :
    ((Event.warnZipMemory ∈
        (compress_files env files (.Zip :: rest) output level zmin zmax).2 ↔
        rest ≠ []) ∧
      (Event.askUser ∈
        (compress_files env files (.Zip :: rest) output level zmin zmax).2 ↔
        rest ≠ [])) ∧
    (rest = [] → env.zipBuildResult = .ok () → env.zipCopyResult = .ok () →
      compress_files env files (.Zip :: rest) output level zmin zmax =
        (.ok true, [.zipBuildToBuffer, .bufferRewind, .sinkWrite env.zipBytes])) ∧
    (rest ≠ [] → env.userAnswer = .ok true →
      env.zipBuildResult = .ok () → env.zipCopyResult = .ok () →
      compress_files env files (.Zip :: rest) output level zmin zmax =
        (.ok true, [.warnZipMemory, .askUser, .zipBuildToBuffer, .bufferRewind,
          .sinkWrite env.zipBytes])) := by
  obtain ⟨w, hw⟩ := buildChain_ok_of_no_archive level zmin zmax rest harch Writer.file
  rw [compress_files_cons_chain_ok env files .Zip rest output level zmin zmax w hw]
  simp only [dispatchFirst]
  refine ⟨zipArm_warn_ask_mem env rest, ?_, ?_⟩
  · intro hnil hb hc
    have he : rest.isEmpty = true := by simp [List.isEmpty_iff, hnil]
    unfold zipArm
    rw [he]
    simp only [if_true]
    exact zipProceed_success env hb hc
  · intro hne hans hb hc
    have he : rest.isEmpty = false := by simp [List.isEmpty_iff, hne]
    unfold zipArm
    rw [he, hans]
    simp only [Bool.false_eq_true, if_false]
    rw [zipProceed_success env hb hc]

/-- C4 witness: the no-outer-format run and the confirmed outer-format run
with all zip collaborator calls succeeding. -/
theorem claim_C4_witness :
    ((Event.warnZipMemory ∈
        (compress_files env0 [] [.Zip, .Gzip] [] none 0 22).2 ↔
        ([CompressionFormat.Gzip] : List CompressionFormat) ≠ []) ∧
      (Event.askUser ∈
        (compress_files env0 [] [.Zip, .Gzip] [] none 0 22).2 ↔
        ([CompressionFormat.Gzip] : List CompressionFormat) ≠ [])) ∧
    compress_files env0 [] [.Zip, .Gzip] [] none 0 22 =
      (.ok true, [.warnZipMemory, .askUser, .zipBuildToBuffer, .bufferRewind,
        .sinkWrite env0.zipBytes]) :=
  ⟨(claim_C4_zip_buffering env0 [] [.Gzip] [] none 0 22 (by decide)).1,
   (claim_C4_zip_buffering env0 [] [.Gzip] [] none 0 22 (by decide)).2.2
      (by decide) rfl rfl rfl⟩

/-- C2 as stated is false: when opening `files[0]` fails in a streaming run,
the open result is `unwrap`ped (compress.rs line 98), so the run panics; no
I/O error value is returned to the caller. -/
theorem claim_C2_counterexample :
    (compress_files envOpenFail [⟨["a"], false⟩] [.Gzip] [] none 0 22).1 =
      .panicked "called Result unwrap on an Err value" ∧
    (compress_files envOpenFail [⟨["a"], false⟩] [.Gzip] [] none 0 22).1 ≠
      .error "open failed" := by
  decide

/-- C2 amended: for every streaming first format, if opening `files[0]`
fails the run aborts immediately by panicking on the `unwrap` of the open
result (no error value is returned to the caller and no recovery is
attempted; nothing has been copied at that point). -/
theorem claim_C2_open_fail_panics (env : Env) (f : InputFile)
    (files2 : List InputFile) (first : CompressionFormat)
    (rest : List CompressionFormat) (output : List String)
    (level : Option Int) (zmin zmax : Int) (e : IOErr)
    (hf : first.isStreaming = true)
    (harch : ∀ g ∈ rest, g.isArchive = false)
    (hopen : env.openResult = .error e) :
    compress_files env (f :: files2) (first :: rest) output level zmin zmax =
      (.panicked "called Result unwrap on an Err value", [.openSource f.path]) := by
  obtain ⟨w, hw⟩ := buildChain_ok_of_no_archive level zmin zmax rest harch Writer.file
  rw [compress_files_cons_chain_ok env (f :: files2) first rest output level
    zmin zmax w hw]
  rw [dispatchFirst_streaming env (f :: files2) first hf rest output level zmin zmax w]
  obtain ⟨w2, hw2⟩ := chain_writer_encoder_ok_of_streaming level zmin zmax first hf w
  simp [streamArm, hw2, hopen]

/-- C2 witness: a gzip run whose source file cannot be opened. -/
theorem claim_C2_witness :
    compress_files envOpenFail [⟨["a"], false⟩] [.Gzip] [] none 0 22 =
      (.panicked "called Result unwrap on an Err value", [.openSource ["a"]]) :=
  claim_C2_open_fail_panics envOpenFail ⟨["a"], false⟩ [] .Gzip [] [] none 0 22
    "open failed" (by decide) (by decide) rfl

/-- C8: a SevenZip run never writes to or flushes the built sink; a fully
successful run stages every input path (directories and files in order)
and invokes the external archiver on the output path, and those are its
only effects. -/
theorem claim_C8_sevenzip_bypasses_sink (env : Env) (files : List InputFile)
    (rest : List CompressionFormat) (output : List String)
    (level : Option Int) (zmin zmax : Int)
    (harch : ∀ f ∈ rest, f.isArchive = false) :
    (∀ bs, Event.sinkWrite bs ∉
      (compress_files env files (.SevenZip :: rest) output level zmin zmax).2) ∧
    Event.sinkFlush ∉
      (compress_files env files (.SevenZip :: rest) output level zmin zmax).2 ∧
    (∀ tmp, env.tempdirResult = .ok tmp →
      (compress_files env files (.SevenZip :: rest) output level zmin zmax).1 =
        .ok true →
      (compress_files env files (.SevenZip :: rest) output level zmin zmax).2 =
        files.map stageEvent ++ [Event.invokeSevenZip output]) := by
  obtain ⟨w, hw⟩ := buildChain_ok_of_no_archive level zmin zmax rest harch Writer.file
  rw [compress_files_cons_chain_ok env files .SevenZip rest output level zmin zmax w hw]
  simp only [dispatchFirst]
  refine ⟨?_, ?_, ?_⟩
  · intro bs hmem
    rcases sevenZipArm_events env files output _ hmem with ⟨p, hp⟩ | ⟨p, hp⟩ | hp <;>
      simp at hp
  · intro hmem
    rcases sevenZipArm_events env files output _ hmem with ⟨p, hp⟩ | ⟨p, hp⟩ | hp <;>
      simp at hp
  · intro tmp ht hok
    exact sevenZipArm_success_trace env files output tmp ht hok

/-- C8 witness: a successful SevenZip run over one directory and one file. -/
theorem claim_C8_witness :
    (∀ bs, Event.sinkWrite bs ∉
      (compress_files env0 [⟨["home", "d"], true⟩, ⟨["a"], false⟩]
        [.SevenZip] ["o"] none 0 22).2) ∧
    Event.sinkFlush ∉
      (compress_files env0 [⟨["home", "d"], true⟩, ⟨["a"], false⟩]
        [.SevenZip] ["o"] none 0 22).2 ∧
    (∀ tmp, env0.tempdirResult = .ok tmp →
      (compress_files env0 [⟨["home", "d"], true⟩, ⟨["a"], false⟩]
        [.SevenZip] ["o"] none 0 22).1 = .ok true →
      (compress_files env0 [⟨["home", "d"], true⟩, ⟨["a"], false⟩]
        [.SevenZip] ["o"] none 0 22).2 =
        [⟨["home", "d"], true⟩, (⟨["a"], false⟩ : InputFile)].map stageEvent ++
          [Event.invokeSevenZip ["o"]]) :=
  claim_C8_sevenzip_bypasses_sink env0 [⟨["home", "d"], true⟩, ⟨["a"], false⟩]
    [] ["o"] none 0 22 (by decide)

/-- C9: with a streaming first format and an empty file list, the run
panics on the out-of-bounds index `files[0]` instead of returning an error
result (no length check is performed before indexing). -/
theorem claim_C9_empty_files_panics (env : Env) (first : CompressionFormat)
    (rest : List CompressionFormat) (output : List String)
    (level : Option Int) (zmin zmax : Int)
    (hf : first.isStreaming = true)
    (harch : ∀ g ∈ rest, g.isArchive = false) :
    compress_files env [] (first :: rest) output level zmin zmax =
      (.panicked "index out of bounds", []) := by
  obtain ⟨w, hw⟩ := buildChain_ok_of_no_archive level zmin zmax rest harch Writer.file
  rw [compress_files_cons_chain_ok env [] first rest output level zmin zmax w hw]
  rw [dispatchFirst_streaming env [] first hf rest output level zmin zmax w]
  obtain ⟨w2, hw2⟩ := chain_writer_encoder_ok_of_streaming level zmin zmax first hf w
  simp [streamArm, hw2]

/-- C9 witness: a zstd run over an empty file list. -/
theorem claim_C9_witness :
    compress_files env0 [] [.Zstd] [] none 0 22 =
      (.panicked "index out of bounds", []) :=
  claim_C9_empty_files_panics env0 .Zstd [] [] none 0 22 (by decide) (by decide)

/-- C10: in a SevenZip run, when staging reaches a directory input that is
not a descendant of the current working directory, `strip_prefix` fails and
the `expect` panics with "copy folder error"; no error result is
returned. -/
theorem claim_C10_nondescendant_dir_panics (env : Env) (pre : List InputFile)
    (d : InputFile) (rest : List InputFile) (restf : List CompressionFormat)
    (output : List String) (level : Option Int) (zmin zmax : Int)
    (cwd tmp : List String)
    (harch : ∀ f ∈ restf, f.isArchive = false)
    (htmp : env.tempdirResult = .ok tmp)
    (hpre : (stageFiles env pre).1 = .ok true)
    (hd : d.isDir = true)
    (hcwd : env.currentDirResult = .ok cwd)
    (hnp : cwd.isPrefixOf d.path = false) :
    (compress_files env (pre ++ d :: rest) (.SevenZip :: restf) output level
      zmin zmax).1 = .panicked "copy folder error" := by
  obtain ⟨w, hw⟩ := buildChain_ok_of_no_archive level zmin zmax restf harch Writer.file
  rw [compress_files_cons_chain_ok env (pre ++ d :: rest) .SevenZip restf output
    level zmin zmax w hw]
  simp only [dispatchFirst]
  rw [sevenZipArm_eq_run env (pre ++ d :: rest) output tmp htmp]
  have hso : stageOne env d = .error (.panicked "copy folder error", []) := by
    simp [stageOne, hd, hcwd, stripPathPre, hnp]
  have hst : stageFiles env (d :: rest) = (.panicked "copy folder error", []) :=
    stageFiles_cons_error env d rest _ hso
  have happ := stageFiles_append_of_ok env pre (d :: rest) true hpre
  have hsf : stageFiles env (pre ++ d :: rest) =
      (.panicked "copy folder error", (stageFiles env pre).2) := by
    rw [happ, hst]
    simp
  rw [sevenZipRun_stage_panicked env (pre ++ d :: rest) output "copy folder error"
    (stageFiles env pre).2 hsf]

/-- C10 witness: a directory `d` outside the current directory `home`. -/
theorem claim_C10_witness :
    (compress_files env0 ([] ++ ⟨["d"], true⟩ :: []) [.SevenZip] ["o"] none 0
      22).1 = .panicked "copy folder error" :=
  claim_C10_nondescendant_dir_panics env0 [] ⟨["d"], true⟩ [] [] ["o"] none 0 22
    ["home"] ["tmp"] (by decide) rfl rfl rfl rfl (by decide)

end Ouch
